import Mathlib

/-!
Verification of the ChittyTrust scoring engine against its specification.

The engine (src/chittytrust: chitty_trust/dimensions.py, chitty_trust/analytics.py,
attached_assets/core_*.py, attached_assets/scores_*.py, models from
chittychronicle/chittytrust/src/chitty_trust/models.py) is embedded shallowly:

* Python floats are idealised as rationals (ℚ).
* A datetime is a rational number of days since an arbitrary epoch;
  the current wall clock datetime.utcnow() becomes an explicit parameter
  called now.  The .days field of a timedelta is the floor of the
  difference measured in days (Python timedelta normalisation floors
  towards negative infinity), hence Int.floor below.
* Async functions are pure here; the Python code performs no I/O or
  mutation inside the scorers.
-/

namespace ChittyTrust

/-- Credential record (models.py, class Credential).  The metadata dict is
never read by any scorer and is omitted. -/
structure Credential where
  type : String
  issuer : String
  issued_at : ℚ
  expires_at : Option ℚ
  verification_status : String
  deriving DecidableEq, Repr

/-- Connection record (models.py, class Connection). -/
structure Connection where
  entity_id : String
  connection_type : String
  established_at : ℚ
  trust_score : ℚ
  interaction_count : ℕ
  last_interaction : Option ℚ
  deriving DecidableEq, Repr

/-- TrustEntity record (models.py, class TrustEntity); metadata omitted
(never read by the engine). -/
structure TrustEntity where
  id : String
  entity_type : String
  name : String
  created_at : ℚ
  identity_verified : Bool
  credentials : List Credential
  connections : List Connection
  transparency_level : ℚ
  deriving DecidableEq, Repr

/-- TrustEvent record (models.py, class TrustEvent); metadata omitted.
The pydantic model constrains event_type and outcome to closed string
enumerations and impact_score to [0,10]; those constraints live in the
ValidInput predicate below, not in the type. -/
structure TrustEvent where
  id : String
  entity_id : String
  event_type : String
  timestamp : ℚ
  channel : Option String
  outcome : String
  impact_score : ℚ
  related_entities : List String
  tags : List String
  deriving DecidableEq, Repr

/-- Mean of a list of rationals, np.mean.  Callers in the engine only
apply it to non-empty lists (ℚ division by zero yields 0, a case that is
always guarded in the source). -/
def listMean (l : List ℚ) : ℚ := l.sum / (l.length : ℚ)

/-- Population variance, np.var. -/
def listVar (l : List ℚ) : ℚ :=
  (l.map (fun x => (x - listMean l) ^ 2)).sum / (l.length : ℚ)

/-- Timestamp of max(events, key=lambda e: e.timestamp); only the
timestamp of the maximal event is ever used by the engine.  The nil case
is never reached (all call sites guard on a non-empty list). -/
def latestTimestamp : List TrustEvent → ℚ
  | [] => 0
  | e :: es => es.foldl (fun acc x => max acc x.timestamp) e.timestamp

/-- Consecutive day gaps (event_dates[i] - event_dates[i-1]).days of
TemporalDimension.calculate. -/
def dayGaps : List ℚ → List ℤ
  | [] => []
  | [_] => []
  | a :: b :: rest => Int.floor (b - a) :: dayGaps (b :: rest)

/-! ## Dimension scorers (dimensions.py) -/

/-- SourceDimension.calculate. -/
def sourceCalculate (entity : TrustEntity) ( _events : List TrustEvent) : ℚ :=
  let identityScore : ℚ := if entity.identity_verified then 30 else 0
  let credentials := entity.credentials
  let credentialScore := min ((credentials.length : ℚ) * 10) 30
  let govScore : ℚ := if credentials.any (fun c => c.type == "government_id") then 20 else 0
  let profCerts := credentials.filter (fun c => c.type == "professional")
  let profScore := min ((profCerts.length : ℚ) * 5) 20
  min (identityScore + credentialScore + govScore + profScore) 100

/-- Age component of TemporalDimension.calculate:
min(account_age_days / 365 * 30, 30). -/
def temporalAge (now : ℚ) (entity : TrustEntity) : ℚ :=
  min (((Int.floor (now - entity.created_at) : ℤ) : ℚ) / 365 * 30) 30

/-- Consistency component of TemporalDimension.calculate: mean gap
between consecutive event timestamps when at least one gap exists,
otherwise the fixed value 15. -/
def temporalConsistency (events : List TrustEvent) : ℚ :=
  let eventGaps := dayGaps (events.map (fun e => e.timestamp))
  if eventGaps.isEmpty then 15
  else max 0 (30 - listMean (eventGaps.map (fun g : ℤ => (g : ℚ))) / 10)

/-- Recency component of TemporalDimension.calculate:
max(0, 20 - days_since_active / 10). -/
def temporalRecency (now : ℚ) (events : List TrustEvent) : ℚ :=
  max 0 (20 - ((Int.floor (now - latestTimestamp events) : ℤ) : ℚ) / 10)

/-- Longevity component of TemporalDimension.calculate:
min(positive_event_count / 10 * 20, 20). -/
def temporalLongevity (events : List TrustEvent) : ℚ :=
  min (((events.filter (fun e => e.outcome == "positive")).length : ℚ) / 10 * 20) 20

/-- TemporalDimension.calculate. -/
def temporalCalculate (now : ℚ) (entity : TrustEntity) (events : List TrustEvent) : ℚ :=
  if events.isEmpty then 0
  else temporalAge now entity + temporalConsistency events
    + temporalRecency now events + temporalLongevity events

/-- ChannelDimension.CHANNEL_TRUST_SCORES lookup with the dict.get
default of 20 for an unknown channel. -/
def CHANNEL_TRUST_SCORES (c : String) : ℚ :=
  if c = "verified_api" then 95
  else if c = "blockchain" then 90
  else if c = "bank_transfer" then 85
  else if c = "credit_card" then 80
  else if c = "oauth" then 75
  else if c = "email" then 60
  else if c = "sms" then 55
  else if c = "social_media" then 40
  else if c = "anonymous" then 10
  else 20

/-- Python expression event.channel or "anonymous": None and the empty
string are both falsy and fall back to "anonymous". -/
def channelOrAnonymous : Option String → String
  | none => "anonymous"
  | some s => if s = "" then "anonymous" else s

/-- Per-event channel trust value used by ChannelDimension.calculate. -/
def eventChannelScore (e : TrustEvent) : ℚ :=
  CHANNEL_TRUST_SCORES (channelOrAnonymous e.channel)

/-- Weight i of np.linspace(0.5, 1.0, n); linspace with a single point
yields just the start value 0.5. -/
def linspaceWeight (n i : ℕ) : ℚ :=
  if n ≤ 1 then 1 / 2 else 1 / 2 + (1 / 2) * (i : ℚ) / ((n : ℚ) - 1)

/-- np.average(values, weights): weighted sum divided by the weight sum. -/
def npAverage (values weights : List ℚ) : ℚ :=
  (List.zipWith (fun w s => w * s) weights values).sum / weights.sum

/-- ChannelDimension.calculate. -/
def channelCalculate ( _entity : TrustEntity) (events : List TrustEvent) : ℚ :=
  if events.isEmpty then 0
  else
    let channelScores := events.map eventChannelScore
    let weights := (List.range channelScores.length).map (linspaceWeight channelScores.length)
    let weightedScore :=
      if 0 < weights.length then npAverage channelScores weights
      else listMean channelScores
    let verifiedChannels :=
      ((events.filterMap (fun e => e.channel)).filter
        (fun c => (["verified_api", "blockchain", "bank_transfer"] : List String).contains c)).dedup
    let diversityBonus := min ((verifiedChannels.length : ℚ) * 5) 15
    min (weightedScore + diversityBonus) 100

/-- OutcomeDimension.calculate. -/
def outcomeCalculate (now : ℚ) ( _entity : TrustEntity) (events : List TrustEvent) : ℚ :=
  if events.isEmpty then 0
  else
    let positiveEvents := events.filter (fun e => e.outcome == "positive")
    let negativeEvents := events.filter (fun e => e.outcome == "negative")
    let totalEvents : ℚ := (events.length : ℚ)
    let positiveShare := (positiveEvents.length : ℚ) / totalEvents
    let negativeShare := (negativeEvents.length : ℚ) / totalEvents
    let baseScore := positiveShare * 70
    let negativePenalty := negativeShare * 100
    let consistencyBonus : ℚ :=
      if positiveShare > 8 / 10 ∧ events.length > 10 then 20
      else if positiveShare > 6 / 10 then 10
      else 0
    let recentEvents := events.filter (fun e => e.timestamp > now - 90)
    let recencyAdjustment : ℚ :=
      if recentEvents.isEmpty then 0
      else
        let recentPositive := (recentEvents.filter (fun e => e.outcome == "positive")).length
        let recentShare := (recentPositive : ℚ) / (recentEvents.length : ℚ)
        (recentShare - positiveShare) * 20
    max 0 (min (baseScore - negativePenalty + consistencyBonus + recencyAdjustment) 100)

/-- NetworkDimension.calculate. -/
def networkCalculate (entity : TrustEntity) (events : List TrustEvent) : ℚ :=
  let connections := entity.connections
  let sizeScore := min ((connections.length : ℚ) / 100 * 20) 20
  let qualityScore : ℚ :=
    if connections.isEmpty then 0
    else listMean (connections.map (fun c => c.trust_score)) * (4 / 10)
  let interactionEvents := events.filter
    (fun e => (["interaction", "transaction", "collaboration"] : List String).contains e.event_type)
  let frequencyScore := min ((interactionEvents.length : ℚ) / 50 * 20) 20
  let endorsementEvents := events.filter
    (fun e => e.event_type == "endorsement" && e.outcome == "positive")
  let endorsementScore := min ((endorsementEvents.length : ℚ) * 5) 20
  sizeScore + qualityScore + frequencyScore + endorsementScore

/-- JusticeDimension.calculate.  The Python guards of the form
e.tags and ... are kept literally (!e.tags.isEmpty && ...); an empty
tag list is falsy in Python. -/
def justiceCalculate (entity : TrustEntity) (events : List TrustEvent) : ℚ :=
  let communityEvents := events.filter
    (fun e => !e.tags.isEmpty && e.tags.contains "community_impact")
  let communityScore := min ((communityEvents.length : ℚ) * 10) 30
  let justiceEvents := events.filter
    (fun e => !e.tags.isEmpty &&
      (["justice", "fairness", "equality", "transparency"] : List String).any
        (fun t => e.tags.contains t))
  let justiceTagScore := min ((justiceEvents.length : ℚ) * 8) 25
  let harmPrevention := events.filter
    (fun e => !e.tags.isEmpty && e.tags.contains "harm_prevention")
  let preventionScore := min ((harmPrevention.length : ℚ) * 5) 15
  let resolutionEvents := events.filter
    (fun e => e.event_type == "dispute_resolution" && e.outcome == "positive")
  let resolutionScore := min ((resolutionEvents.length : ℚ) * 10) 20
  let transparencyBonus : ℚ :=
    if entity.transparency_level ≠ 0 ∧ entity.transparency_level > 7 / 10 then 10 else 0
  min (communityScore + justiceTagScore + preventionScore + resolutionScore + transparencyBonus)
    100

/-! ## Output scorers (attached_assets/scores_*.py) -/

/-- The six dimension scores, keyed source/temporal/channel/outcome/
network/justice as in the engine's dimension_scores dict. -/
structure DimScores where
  source : ℚ
  temporal : ℚ
  channel : ℚ
  outcome : ℚ
  network : ℚ
  justice : ℚ
  deriving DecidableEq, Repr

/-- PeopleScore.calculate. -/
def peopleCalculate (d : DimScores) ( _entity : TrustEntity) (events : List TrustEvent) : ℚ :=
  let baseScore := d.source * (10 / 100) + d.temporal * (10 / 100) + d.channel * (10 / 100)
    + d.outcome * (20 / 100) + d.network * (25 / 100) + d.justice * (25 / 100)
  let communityEvents := events.filter
    (fun e => !e.tags.isEmpty &&
      (["community", "volunteer", "charity", "public_good"] : List String).any
        (fun t => e.tags.contains t))
  let communityBonus := min ((communityEvents.length : ℚ) * 2) 10
  let antisocialEvents := events.filter
    (fun e => !e.tags.isEmpty &&
      (["harassment", "discrimination", "fraud", "violation"] : List String).any
        (fun t => e.tags.contains t))
  let antisocialPenalty := (antisocialEvents.length : ℚ) * 5
  max 0 (min (baseScore + communityBonus - antisocialPenalty) 100)

/-- LegalScore.calculate. -/
def legalCalculate (d : DimScores) (entity : TrustEntity) (events : List TrustEvent) : ℚ :=
  let baseScore := d.source * (25 / 100) + d.temporal * (15 / 100) + d.channel * (20 / 100)
    + d.outcome * (15 / 100) + d.network * (10 / 100) + d.justice * (15 / 100)
  let complianceEvents := events.filter
    (fun e => !e.tags.isEmpty &&
      (["compliance", "regulatory", "audit_passed", "certification"] : List String).any
        (fun t => e.tags.contains t))
  let complianceBonus := min ((complianceEvents.length : ℚ) * 3) 15
  let violationEvents := events.filter
    (fun e => !e.tags.isEmpty &&
      (["violation", "breach", "illegal", "sanctioned"] : List String).any
        (fun t => e.tags.contains t))
  let violationPenalty := (violationEvents.length : ℚ) * 10
  let docScore : ℚ :=
    if entity.credentials.isEmpty then 0
    else min ((entity.credentials.length : ℚ) * 2) 10
  max 0 (min (baseScore + complianceBonus + docScore - violationPenalty) 100)

/-- StateScore.calculate. -/
def stateCalculate (d : DimScores) (entity : TrustEntity) (events : List TrustEvent) : ℚ :=
  let baseScore := d.source * (30 / 100) + d.temporal * (15 / 100) + d.channel * (25 / 100)
    + d.outcome * (10 / 100) + d.network * (10 / 100) + d.justice * (10 / 100)
  let govCredentials := entity.credentials.filter
    (fun c => c.type == "government_id" && c.verification_status == "verified")
  let govBonus := (govCredentials.length : ℚ) * 15
  let institutionalEvents := events.filter
    (fun e => !e.tags.isEmpty &&
      (["government", "institutional", "official", "licensed"] : List String).any
        (fun t => e.tags.contains t))
  let instBonus := min ((institutionalEvents.length : ℚ) * 2) 10
  let antiEvents := events.filter
    (fun e => !e.tags.isEmpty &&
      (["protest", "dissent", "whistleblower", "activist"] : List String).any
        (fun t => e.tags.contains t))
  let antiPenalty := (antiEvents.length : ℚ) * 2
  max 0 (min (baseScore + govBonus + instBonus - antiPenalty) 100)

/-- Violation penalty of ChittyScore.calculate: events tagged
"violation" are split into those also tagged "civil_disobedience" or
"whistleblower" (justice_violations) and the rest; the penalty is
regular_violations * 5 + justice_violations * 1. -/
def chittyViolationPenalty (events : List TrustEvent) : ℚ :=
  let violationEvents := events.filter
    (fun e => !e.tags.isEmpty && e.tags.contains "violation")
  let justiceViolations := violationEvents.filter
    (fun e => (["civil_disobedience", "whistleblower"] : List String).any
      (fun t => e.tags.contains t))
  let regularViolations := (violationEvents.length : ℚ) - (justiceViolations.length : ℚ)
  regularViolations * 5 + (justiceViolations.length : ℚ) * 1

/-- ChittyScore.calculate. -/
def chittyCalculate (d : DimScores) ( _entity : TrustEntity) (events : List TrustEvent) : ℚ :=
  let baseScore := d.source * (10 / 100) + d.temporal * (10 / 100) + d.channel * (10 / 100)
    + d.outcome * (25 / 100) + d.network * (15 / 100) + d.justice * (30 / 100)
  let justiceEvents := events.filter
    (fun e => !e.tags.isEmpty &&
      (["justice", "fairness", "helped_vulnerable", "truth_telling",
        "accountability", "reparation", "reform"] : List String).any
        (fun t => e.tags.contains t))
  let justiceBonus := min ((justiceEvents.length : ℚ) * 4) 20
  let impactEvents := events.filter
    (fun e => e.outcome == "positive" && e.impact_score > 5)
  let impactBonus := min ((impactEvents.map (fun e => e.impact_score)).sum / 10) 15
  let transformationEvents := events.filter
    (fun e => !e.tags.isEmpty && e.tags.contains "transformation")
  let transformationBonus : ℚ := if transformationEvents.isEmpty then 0 else 10
  max 0 (min
    (baseScore + justiceBonus + impactBonus + transformationBonus - chittyViolationPenalty events)
    100)

/-! ## Engine (attached_assets/core_*.py) -/

/-- TrustScore result record (core.py, dataclass TrustScore). -/
structure TrustScore where
  source_score : ℚ
  temporal_score : ℚ
  channel_score : ℚ
  outcome_score : ℚ
  network_score : ℚ
  justice_score : ℚ
  people_score : ℚ
  legal_score : ℚ
  state_score : ℚ
  chitty_score : ℚ
  calculated_at : ℚ
  confidence : ℚ
  explanation : List (String × String)
  deriving DecidableEq, Repr

/-- TrustScore.composite_score: the fixed-weight sum built exactly as in
the source (a weights dict applied to the six dimension fields, the six
products collected into a list and summed). -/
def TrustScore.composite_score (t : TrustScore) : ℚ :=
  let scores := [t.source_score * (15 / 100), t.temporal_score * (10 / 100),
    t.channel_score * (15 / 100), t.outcome_score * (20 / 100),
    t.network_score * (15 / 100), t.justice_score * (25 / 100)]
  scores.sum

/-- TrustEngine._generate_explanation: three fixed sentences per
dimension, bucketed at 50 and 80. -/
def generateExplanation (d : DimScores) : List (String × String) :=
  [("source",
      if d.source < 50 then "Limited verification of identity and credentials"
      else if d.source < 80 then "Partially verified identity with some credentials"
      else "Fully verified identity with strong credentials"),
    ("temporal",
      if d.temporal < 50 then "Limited or inconsistent history"
      else if d.temporal < 80 then "Moderate history with some gaps"
      else "Long, consistent history of positive behavior"),
    ("channel",
      if d.channel < 50 then "Uses unverified or low-trust channels"
      else if d.channel < 80 then "Mix of verified and unverified channels"
      else "Primarily uses verified, high-trust channels"),
    ("outcome",
      if d.outcome < 50 then "Poor track record of outcomes"
      else if d.outcome < 80 then "Mixed outcomes with room for improvement"
      else "Excellent track record of positive outcomes"),
    ("network",
      if d.network < 50 then "Limited or low-trust network connections"
      else if d.network < 80 then "Growing network with mixed trust levels"
      else "Strong network of high-trust connections"),
    ("justice",
      if d.justice < 50 then "Actions show limited alignment with justice"
      else if d.justice < 80 then "Generally justice-aligned with some concerns"
      else "Strongly aligned with justice principles")]

/-- TrustEngine._calculate_confidence.  The scores dict is iterated in
insertion order source/temporal/channel/outcome/network/justice. -/
def calculateConfidence (now : ℚ) (events : List TrustEvent) (d : DimScores) : ℚ :=
  let eventConfidence := min ((events.length : ℚ) / 100) 1 * (1 / 2)
  let scoreVariance := listVar [d.source, d.temporal, d.channel, d.outcome, d.network, d.justice]
  let consistencyConfidence := (1 - scoreVariance / 5000) * (3 / 10)
  let recencyConfidence : ℚ :=
    if events.isEmpty then 0
    else max 0 (1 - ((Int.floor (now - latestTimestamp events) : ℤ) : ℚ) / 365) * (1 / 5)
  min (max (eventConfidence + consistencyConfidence + recencyConfidence) (1 / 10)) 1

/-- The dimension_scores dict assembled inside TrustEngine.calculate_trust. -/
def engineDims (now : ℚ) (entity : TrustEntity) (events : List TrustEvent) : DimScores :=
  { source := sourceCalculate entity events
    temporal := temporalCalculate now entity events
    channel := channelCalculate entity events
    outcome := outcomeCalculate now entity events
    network := networkCalculate entity events
    justice := justiceCalculate entity events }

/-- TrustEngine.calculate_trust (also the module-level calculate_trust
convenience function, which constructs a fresh engine and delegates).
The engine performs no input validation; datetime.utcnow() is the now
parameter and fills calculated_at. -/
def calculateTrust (now : ℚ) (entity : TrustEntity) (events : List TrustEvent) : TrustScore :=
  let d := engineDims now entity events
  { source_score := d.source
    temporal_score := d.temporal
    channel_score := d.channel
    outcome_score := d.outcome
    network_score := d.network
    justice_score := d.justice
    people_score := peopleCalculate d entity events
    legal_score := legalCalculate d entity events
    state_score := stateCalculate d entity events
    chitty_score := chittyCalculate d entity events
    calculated_at := now
    confidence := calculateConfidence now events d
    explanation := generateExplanation d }

/-! ## Analytics (chitty_trust/analytics.py, detect_patterns) -/

/-- TrustPattern record (models of analytics.py). -/
structure TrustPattern where
  pattern_type : String
  description : String
  frequency : ℕ
  last_occurrence : ℚ
  risk_level : String
  recommendation : String
  deriving DecidableEq, Repr

/-- The filter for high-value events probes hasattr(e, 'value'); the
TrustEvent model (models.py) defines no value field, so the probe is
false for every event the model can produce. -/
def hasValueAttr ( _e : TrustEvent) : Bool := false

/-- TrustAnalytics.detect_patterns.  The e.value > 1000 comparison of
the source sits behind the hasattr guard and is therefore unreachable;
the guard itself is kept literally. -/
def detectPatterns ( _entity : TrustEntity) (events : List TrustEvent) : List TrustPattern :=
  let highValueEvents := events.filter
    (fun e => e.event_type == "transaction" && hasValueAttr e)
  let highValuePatterns : List TrustPattern :=
    if highValueEvents.length > 5 then
      [{ pattern_type := "high_value_activity"
         description := "Regular high-value transactions with consistent positive outcomes"
         frequency := highValueEvents.length
         last_occurrence := latestTimestamp highValueEvents
         risk_level := "low"
         recommendation := "Suitable for high-value engagements" }]
    else []
  let communityEvents := events.filter
    (fun e => (["community_service", "endorsement", "collaboration"] : List String).contains
      e.event_type)
  let communityPatterns : List TrustPattern :=
    if communityEvents.length > 8 then
      [{ pattern_type := "community_engagement"
         description := "Strong pattern of community involvement and collaborative activities"
         frequency := communityEvents.length
         last_occurrence := latestTimestamp communityEvents
         risk_level := "low"
         recommendation := "Excellent for community-focused initiatives" }]
    else []
  let professionalEvents := events.filter
    (fun e => (["certification", "professional_development", "training"] : List String).contains
      e.event_type)
  let professionalPatterns : List TrustPattern :=
    if professionalEvents.length > 3 then
      [{ pattern_type := "professional_development"
         description := "Consistent investment in professional growth and skill development"
         frequency := professionalEvents.length
         last_occurrence := latestTimestamp professionalEvents
         risk_level := "low"
         recommendation := "Strong candidate for professional partnerships" }]
    else []
  highValuePatterns ++ communityPatterns ++ professionalPatterns

/-- Validity of the engine's inputs: the pydantic field constraints of
models.py (trust_score in [0,100], transparency_level in [0,1],
impact_score in [0,10]) together with the temporal sanity of the data
the caller must supply (events ordered by timestamp as required in the
interface contract, and no record stamped in the future of the clock
reading now). -/
def ValidInput (now : ℚ) (entity : TrustEntity) (events : List TrustEvent) : Prop :=
  entity.created_at ≤ now ∧
  (∀ e ∈ events, e.timestamp ≤ now) ∧
  List.Chain' (fun a b => a.timestamp ≤ b.timestamp) events ∧
  (∀ c ∈ entity.connections, 0 ≤ c.trust_score ∧ c.trust_score ≤ 100) ∧
  (0 ≤ entity.transparency_level ∧ entity.transparency_level ≤ 1) ∧
  (∀ e ∈ events, 0 ≤ e.impact_score ∧ e.impact_score ≤ 10)

/-- Event map replacing only the entity_id field; used to state that the
engine never consults entity_id. -/
def withEntityId (s : String) (e : TrustEvent) : TrustEvent := { e with entity_id := s }

/-- The outcome formula in the words of the (amended) specification
sentence: positive_ratio*70 - negative_ratio*100 + consistency_bonus
(20 when the positive ratio exceeds 0.8 with more than 10 events, 10
when it exceeds 0.6, else 0) + recency_adjustment ((recent 90-day
positive ratio - overall positive ratio)*20, 0 when no event falls in
the last 90 days), clamped to [0,100]; 0 for an empty event list.  It is
compared against outcomeCalculate, the embedding of the source. -/
def outcomeSpecScore (now : ℚ) (events : List TrustEvent) : ℚ :=
  if events = [] then 0
  else
    let n : ℚ := (events.length : ℚ)
    let posShare : ℚ := (events.countP (fun e => e.outcome == "positive") : ℚ) / n
    let negShare : ℚ := (events.countP (fun e => e.outcome == "negative") : ℚ) / n
    let consistencyBonus : ℚ :=
      if posShare > 8 / 10 ∧ events.length > 10 then 20
      else if posShare > 6 / 10 then 10
      else 0
    let recentCount := events.countP (fun e => decide (e.timestamp > now - 90))
    let recentPosCount := events.countP
      (fun e => e.outcome == "positive" && decide (e.timestamp > now - 90))
    let recencyAdjustment : ℚ :=
      if recentCount = 0 then 0
      else ((recentPosCount : ℚ) / (recentCount : ℚ) - posShare) * 20
    max 0 (min (posShare * 70 - negShare * 100 + consistencyBonus + recencyAdjustment) 100)

/-! ## Concrete inputs used by witnesses and counterexamples -/

/-- A minimal entity: no credentials, no connections, created at day 0. -/
def w_entity : TrustEntity :=
  { id := "W", entity_type := "person", name := "W", created_at := 0,
    identity_verified := false, credentials := [], connections := [],
    transparency_level := 1 / 2 }

/-- A transaction event for w_entity at day 50 with the given outcome. -/
def mkOutcomeEvent (idStr : String) (outc : String) : TrustEvent :=
  { id := idStr, entity_id := "W", event_type := "transaction", timestamp := 50,
    channel := none, outcome := outc, impact_score := 1, related_entities := [], tags := [] }

/-- Ten events, nine positive and one neutral, all at day 50. -/
def c6events : List TrustEvent :=
  [mkOutcomeEvent "e0" "positive", mkOutcomeEvent "e1" "positive",
    mkOutcomeEvent "e2" "positive", mkOutcomeEvent "e3" "positive",
    mkOutcomeEvent "e4" "positive", mkOutcomeEvent "e5" "positive",
    mkOutcomeEvent "e6" "positive", mkOutcomeEvent "e7" "positive",
    mkOutcomeEvent "e8" "positive", mkOutcomeEvent "e9" "neutral"]

/-- A positive endorsement event for w_entity at the given day. -/
def mkEndorsement (idStr : String) (t : ℚ) : TrustEvent :=
  { id := idStr, entity_id := "W", event_type := "endorsement", timestamp := t,
    channel := none, outcome := "positive", impact_score := 1, related_entities := [], tags := [] }

/-- Nine endorsement events (strictly more than 8 community-type events). -/
def evs9 : List TrustEvent :=
  [mkEndorsement "n0" 0, mkEndorsement "n1" 1, mkEndorsement "n2" 2, mkEndorsement "n3" 3,
    mkEndorsement "n4" 4, mkEndorsement "n5" 5, mkEndorsement "n6" 6, mkEndorsement "n7" 7,
    mkEndorsement "n8" 8]

/-- Eight endorsement events (exactly 8 community-type events). -/
def evs8 : List TrustEvent :=
  [mkEndorsement "n0" 0, mkEndorsement "n1" 1, mkEndorsement "n2" 2, mkEndorsement "n3" 3,
    mkEndorsement "n4" 4, mkEndorsement "n5" 5, mkEndorsement "n6" 6, mkEndorsement "n7" 7]

/-- The community-engagement pattern detect_patterns emits for evs9. -/
def communityPattern9 : TrustPattern :=
  { pattern_type := "community_engagement"
    description := "Strong pattern of community involvement and collaborative activities"
    frequency := 9, last_occurrence := 8, risk_level := "low"
    recommendation := "Excellent for community-focused initiatives" }

/-- A single positive transaction event at day 0 for w_entity. -/
def c7event : TrustEvent :=
  { id := "c7", entity_id := "W", event_type := "transaction", timestamp := 0,
    channel := none, outcome := "positive", impact_score := 1, related_entities := [], tags := [] }

/-- An event whose entity_id differs from the id of w_entity. -/
def c3event : TrustEvent :=
  { id := "c3", entity_id := "SOMEONE_ELSE", event_type := "transaction", timestamp := 0,
    channel := none, outcome := "positive", impact_score := 1, related_entities := [], tags := [] }

/-! ## Helper lemmas -/

lemma clamp01_bounds (x : ℚ) : 0 ≤ max 0 (min x 100) ∧ max 0 (min x 100) ≤ 100 :=
  ⟨le_max_left _ _, max_le (by norm_num) (min_le_right _ _)⟩

lemma length_filter_and_split {α : Type} (p q : α → Bool) (l : List α) :
    (l.filter (fun a => p a && q a)).length + (l.filter (fun a => p a && !q a)).length
      = (l.filter p).length := by
  induction l with
  | nil => simp
  | cons a t ih =>
    simp only [List.filter_cons]
    cases hp : p a <;> cases hq : q a <;> simp [hp, hq, List.length_cons] <;> omega

lemma list_sum_le (l : List ℚ) (c : ℚ) (h : ∀ x ∈ l, x ≤ c) : l.sum ≤ c * l.length := by
  induction l with
  | nil => simp
  | cons a t ih =>
    have ha := h a (by simp)
    have ht := ih (fun x hx => h x (by simp [hx]))
    simp only [List.sum_cons, List.length_cons]
    push_cast
    linarith

lemma listMean_nonneg (l : List ℚ) (h : ∀ x ∈ l, 0 ≤ x) : 0 ≤ listMean l :=
  div_nonneg (List.sum_nonneg h) (by positivity)

lemma listMean_le (l : List ℚ) (c : ℚ) (hne : l ≠ []) (h : ∀ x ∈ l, x ≤ c) :
    listMean l ≤ c := by
  have hlen : 0 < (l.length : ℚ) := by
    have := List.length_pos.mpr hne
    exact_mod_cast this
  rw [listMean, div_le_iff₀ hlen]
  exact list_sum_le l c h

lemma listVar_nonneg (l : List ℚ) : 0 ≤ listVar l := by
  unfold listVar
  apply div_nonneg _ (by positivity)
  apply List.sum_nonneg
  intro x hx
  obtain ⟨y, _, rfl⟩ := List.mem_map.mp hx
  positivity

lemma dayGaps_nonneg : ∀ (l : List ℚ), l.Chain' (· ≤ ·) → ∀ g ∈ dayGaps l, (0 : ℤ) ≤ g
  | [], _, g, hg => by simp [dayGaps] at hg
  | [_], _, g, hg => by simp [dayGaps] at hg
  | a :: b :: rest, h, g, hg => by
    rw [dayGaps] at hg
    rcases List.mem_cons.mp hg with rfl | hmem
    · exact Int.floor_nonneg.mpr (sub_nonneg.mpr (List.chain'_cons.mp h).1)
    · exact dayGaps_nonneg (b :: rest) (List.chain'_cons.mp h).2 g hmem

lemma foldl_max_le (now : ℚ) : ∀ (es : List TrustEvent) (a : ℚ), a ≤ now →
    (∀ e ∈ es, e.timestamp ≤ now) →
    es.foldl (fun acc x => max acc x.timestamp) a ≤ now
  | [], a, ha, _ => ha
  | e :: t, a, ha, h => by
    simp only [List.foldl_cons]
    exact foldl_max_le now t (max a e.timestamp)
      (max_le ha (h e (by simp))) (fun x hx => h x (by simp [hx]))

lemma latestTimestamp_le (now : ℚ) (events : List TrustEvent) (hne : events ≠ [])
    (h : ∀ e ∈ events, e.timestamp ≤ now) : latestTimestamp events ≤ now := by
  cases events with
  | nil => exact absurd rfl hne
  | cons e t =>
    exact foldl_max_le now t e.timestamp (h e (by simp)) (fun x hx => h x (by simp [hx]))

lemma sum_half_pos (l : List ℚ) (hne : l ≠ []) (h : ∀ x ∈ l, 1 / 2 ≤ x) : 0 < l.sum := by
  cases l with
  | nil => exact absurd rfl hne
  | cons a t =>
    have ha : 1 / 2 ≤ a := h a (by simp)
    have ht : 0 ≤ t.sum :=
      List.sum_nonneg (fun x hx => le_trans (by norm_num) (h x (by simp [hx])))
    simp only [List.sum_cons]
    linarith

lemma zip_sum_le : ∀ (ws vals : List ℚ) (c : ℚ), ws.length = vals.length →
    (∀ w ∈ ws, 0 ≤ w) → (∀ v ∈ vals, v ≤ c) →
    (List.zipWith (fun w s => w * s) ws vals).sum ≤ c * ws.sum
  | [], _, c, _, _, _ => by simp
  | w :: tw, [], c, hlen, _, _ => by simp at hlen
  | w :: tw, v :: tv, c, hlen, hw, hv => by
    have h1 : w * v ≤ w * c :=
      mul_le_mul_of_nonneg_left (hv v (by simp)) (hw w (by simp))
    have h2 := zip_sum_le tw tv c (by simpa using hlen)
      (fun x hx => hw x (by simp [hx])) (fun x hx => hv x (by simp [hx]))
    simp only [List.zipWith_cons_cons, List.sum_cons]
    rw [mul_add, mul_comm c w]
    linarith

lemma le_zip_sum : ∀ (ws vals : List ℚ) (c : ℚ), ws.length = vals.length →
    (∀ w ∈ ws, 0 ≤ w) → (∀ v ∈ vals, c ≤ v) →
    c * ws.sum ≤ (List.zipWith (fun w s => w * s) ws vals).sum
  | [], _, c, _, _, _ => by simp
  | w :: tw, [], c, hlen, _, _ => by simp at hlen
  | w :: tw, v :: tv, c, hlen, hw, hv => by
    have h1 : w * c ≤ w * v :=
      mul_le_mul_of_nonneg_left (hv v (by simp)) (hw w (by simp))
    have h2 := le_zip_sum tw tv c (by simpa using hlen)
      (fun x hx => hw x (by simp [hx])) (fun x hx => hv x (by simp [hx]))
    simp only [List.zipWith_cons_cons, List.sum_cons]
    rw [mul_add, mul_comm c w]
    linarith

lemma linspaceWeight_half (n i : ℕ) : 1 / 2 ≤ linspaceWeight n i := by
  unfold linspaceWeight
  split_ifs with h
  · exact le_refl _
  · have h2 : (2 : ℚ) ≤ (n : ℚ) := by exact_mod_cast (by omega : 2 ≤ n)
    have h3 : (0 : ℚ) ≤ (1 / 2) * (i : ℚ) / ((n : ℚ) - 1) :=
      div_nonneg (by positivity) (by linarith)
    linarith

lemma eventChannelScore_bounds (e : TrustEvent) :
    10 ≤ eventChannelScore e ∧ eventChannelScore e ≤ 95 := by
  unfold eventChannelScore CHANNEL_TRUST_SCORES
  split_ifs <;> norm_num

lemma npAverage_bounds (vals ws : List ℚ) (lo hi : ℚ) (hlen : ws.length = vals.length)
    (hne : ws ≠ []) (hw : ∀ w ∈ ws, 1 / 2 ≤ w)
    (hlo : ∀ v ∈ vals, lo ≤ v) (hhi : ∀ v ∈ vals, v ≤ hi) :
    lo ≤ npAverage vals ws ∧ npAverage vals ws ≤ hi := by
  have hw0 : ∀ w ∈ ws, 0 ≤ w := fun w hww => le_trans (by norm_num) (hw w hww)
  have hpos : 0 < ws.sum := sum_half_pos ws hne hw
  unfold npAverage
  constructor
  · rw [le_div_iff₀ hpos]
    exact le_zip_sum ws vals lo hlen hw0 hlo
  · rw [div_le_iff₀ hpos]
    exact zip_sum_le ws vals hi hlen hw0 hhi

/-! ## Range lemmas for the individual scorers -/

lemma sourceCalculate_bounds (entity : TrustEntity) (events : List TrustEvent) :
    0 ≤ sourceCalculate entity events ∧ sourceCalculate entity events ≤ 100 := by
  unfold sourceCalculate
  refine ⟨le_min ?_ (by norm_num), min_le_right _ _⟩
  have h1 : (0 : ℚ) ≤ if entity.identity_verified then (30 : ℚ) else 0 := by
    split <;> norm_num
  have h2 : (0 : ℚ) ≤ min ((entity.credentials.length : ℚ) * 10) 30 :=
    le_min (by positivity) (by norm_num)
  have h3 : (0 : ℚ) ≤
      if entity.credentials.any (fun c => c.type == "government_id") then (20 : ℚ) else 0 := by
    split <;> norm_num
  have h4 : (0 : ℚ) ≤
      min (((entity.credentials.filter (fun c => c.type == "professional")).length : ℚ) * 5) 20 :=
    le_min (by positivity) (by norm_num)
  linarith

lemma temporalAge_bounds (now : ℚ) (entity : TrustEntity) (h : entity.created_at ≤ now) :
    0 ≤ temporalAge now entity ∧ temporalAge now entity ≤ 30 := by
  unfold temporalAge
  refine ⟨le_min ?_ (by norm_num), min_le_right _ _⟩
  have hd : (0 : ℤ) ≤ Int.floor (now - entity.created_at) :=
    Int.floor_nonneg.mpr (sub_nonneg.mpr h)
  have hd' : (0 : ℚ) ≤ ((Int.floor (now - entity.created_at) : ℤ) : ℚ) := by exact_mod_cast hd
  positivity

lemma temporalConsistency_bounds (events : List TrustEvent)
    (hchain : List.Chain' (fun a b => a.timestamp ≤ b.timestamp) events) :
    0 ≤ temporalConsistency events ∧ temporalConsistency events ≤ 30 := by
  simp only [temporalConsistency]
  split_ifs with h
  · norm_num
  · have hgaps : ∀ g ∈ dayGaps (events.map (fun e => e.timestamp)), (0 : ℤ) ≤ g :=
      dayGaps_nonneg _ ((List.chain'_map _).mpr hchain)
    have hmean : 0 ≤ listMean ((dayGaps (events.map (fun e => e.timestamp))).map
        (fun g : ℤ => (g : ℚ))) := by
      apply listMean_nonneg
      intro x hx
      obtain ⟨g, hg, rfl⟩ := List.mem_map.mp hx
      exact_mod_cast hgaps g hg
    exact ⟨le_max_left _ _, max_le (by norm_num) (by linarith)⟩

lemma temporalRecency_bounds (now : ℚ) (events : List TrustEvent) (hne : events ≠ [])
    (hts : ∀ e ∈ events, e.timestamp ≤ now) :
    0 ≤ temporalRecency now events ∧ temporalRecency now events ≤ 20 := by
  unfold temporalRecency
  have hl : latestTimestamp events ≤ now := latestTimestamp_le now events hne hts
  have hd : (0 : ℤ) ≤ Int.floor (now - latestTimestamp events) :=
    Int.floor_nonneg.mpr (sub_nonneg.mpr hl)
  have hd' : (0 : ℚ) ≤ ((Int.floor (now - latestTimestamp events) : ℤ) : ℚ) := by
    exact_mod_cast hd
  have hdiv : (0 : ℚ) ≤ ((Int.floor (now - latestTimestamp events) : ℤ) : ℚ) / 10 := by
    positivity
  exact ⟨le_max_left _ _, max_le (by norm_num) (by linarith)⟩

lemma temporalLongevity_bounds (events : List TrustEvent) :
    0 ≤ temporalLongevity events ∧ temporalLongevity events ≤ 20 := by
  unfold temporalLongevity
  exact ⟨le_min (by positivity) (by norm_num), min_le_right _ _⟩

lemma temporalCalculate_bounds (now : ℚ) (entity : TrustEntity) (events : List TrustEvent)
    (hc : entity.created_at ≤ now) (hts : ∀ e ∈ events, e.timestamp ≤ now)
    (hchain : List.Chain' (fun a b => a.timestamp ≤ b.timestamp) events) :
    0 ≤ temporalCalculate now entity events ∧ temporalCalculate now entity events ≤ 100 := by
  unfold temporalCalculate
  split_ifs with h
  · norm_num
  · have hne : events ≠ [] := by simpa [List.isEmpty_iff] using h
    have h1 := temporalAge_bounds now entity hc
    have h2 := temporalConsistency_bounds events hchain
    have h3 := temporalRecency_bounds now events hne hts
    have h4 := temporalLongevity_bounds events
    constructor <;> linarith [h1.1, h1.2, h2.1, h2.2, h3.1, h3.2, h4.1, h4.2]

lemma channelCalculate_bounds (entity : TrustEntity) (events : List TrustEvent) :
    0 ≤ channelCalculate entity events ∧ channelCalculate entity events ≤ 100 := by
  by_cases hemp : events.isEmpty
  · simp only [channelCalculate, if_pos hemp]
    norm_num
  · simp only [channelCalculate, if_neg hemp]
    have hne : events ≠ [] := by simpa [List.isEmpty_iff] using hemp
    set vals := events.map eventChannelScore with hvals
    set ws := (List.range vals.length).map (linspaceWeight vals.length) with hws
    have hvne : vals ≠ [] := by
      simp only [hvals, ne_eq, List.map_eq_nil_iff]
      exact hne
    have hlen : ws.length = vals.length := by simp [hws]
    have hwne : ws ≠ [] := by
      intro hcon
      have : ws.length = 0 := by rw [hcon]; rfl
      rw [hlen] at this
      exact hvne (List.length_eq_zero.mp this)
    have hwpos : 0 < ws.length := List.length_pos.mpr hwne
    rw [if_pos hwpos]
    have hwhalf : ∀ w ∈ ws, 1 / 2 ≤ w := by
      intro w hw
      obtain ⟨i, _, rfl⟩ := List.mem_map.mp hw
      exact linspaceWeight_half _ _
    have hlo : ∀ v ∈ vals, (10 : ℚ) ≤ v := by
      intro v hv
      obtain ⟨e, _, rfl⟩ := List.mem_map.mp hv
      exact (eventChannelScore_bounds e).1
    have hhi : ∀ v ∈ vals, v ≤ (95 : ℚ) := by
      intro v hv
      obtain ⟨e, _, rfl⟩ := List.mem_map.mp hv
      exact (eventChannelScore_bounds e).2
    have havg := npAverage_bounds vals ws 10 95 hlen hwne hwhalf hlo hhi
    have hbonus : (0 : ℚ) ≤ min (((((events.filterMap (fun e => e.channel)).filter
        (fun c => (["verified_api", "blockchain", "bank_transfer"] : List String).contains
          c)).dedup.length : ℕ) : ℚ) * 5) 15 :=
      le_min (by positivity) (by norm_num)
    exact ⟨le_min (by linarith [havg.1, hbonus]) (by norm_num), min_le_right _ _⟩

lemma outcomeCalculate_bounds (now : ℚ) (entity : TrustEntity) (events : List TrustEvent) :
    0 ≤ outcomeCalculate now entity events ∧ outcomeCalculate now entity events ≤ 100 := by
  unfold outcomeCalculate
  split_ifs with h
  · norm_num
  · exact clamp01_bounds _

lemma networkCalculate_bounds (entity : TrustEntity) (events : List TrustEvent)
    (htrust : ∀ c ∈ entity.connections, 0 ≤ c.trust_score ∧ c.trust_score ≤ 100) :
    0 ≤ networkCalculate entity events ∧ networkCalculate entity events ≤ 100 := by
  unfold networkCalculate
  have hsize : (0 : ℚ) ≤ min ((entity.connections.length : ℚ) / 100 * 20) 20 ∧
      min ((entity.connections.length : ℚ) / 100 * 20) 20 ≤ 20 :=
    ⟨le_min (by positivity) (by norm_num), min_le_right _ _⟩
  have hqual : (0 : ℚ) ≤ (if entity.connections.isEmpty then (0 : ℚ)
        else listMean (entity.connections.map (fun c => c.trust_score)) * (4 / 10)) ∧
      (if entity.connections.isEmpty then (0 : ℚ)
        else listMean (entity.connections.map (fun c => c.trust_score)) * (4 / 10)) ≤ 40 := by
    split_ifs with hc
    · norm_num
    · have hcne : entity.connections ≠ [] := by simpa [List.isEmpty_iff] using hc
      have hmne : entity.connections.map (fun c => c.trust_score) ≠ [] := by
        simp only [ne_eq, List.map_eq_nil_iff]
        exact hcne
      have hm0 : 0 ≤ listMean (entity.connections.map (fun c => c.trust_score)) := by
        apply listMean_nonneg
        intro x hx
        obtain ⟨c, hcm, rfl⟩ := List.mem_map.mp hx
        exact (htrust c hcm).1
      have hm100 : listMean (entity.connections.map (fun c => c.trust_score)) ≤ 100 := by
        apply listMean_le _ _ hmne
        intro x hx
        obtain ⟨c, hcm, rfl⟩ := List.mem_map.mp hx
        exact (htrust c hcm).2
      constructor <;> nlinarith
  have hfreq : (0 : ℚ) ≤ min (((events.filter (fun e =>
        (["interaction", "transaction", "collaboration"] : List String).contains
          e.event_type)).length : ℚ) / 50 * 20) 20 ∧
      min (((events.filter (fun e =>
        (["interaction", "transaction", "collaboration"] : List String).contains
          e.event_type)).length : ℚ) / 50 * 20) 20 ≤ 20 :=
    ⟨le_min (by positivity) (by norm_num), min_le_right _ _⟩
  have hend : (0 : ℚ) ≤ min (((events.filter (fun e =>
        e.event_type == "endorsement" && e.outcome == "positive")).length : ℚ) * 5) 20 ∧
      min (((events.filter (fun e =>
        e.event_type == "endorsement" && e.outcome == "positive")).length : ℚ) * 5) 20 ≤ 20 :=
    ⟨le_min (by positivity) (by norm_num), min_le_right _ _⟩
  constructor <;> linarith [hsize.1, hsize.2, hqual.1, hqual.2, hfreq.1, hfreq.2, hend.1, hend.2]

lemma justiceCalculate_bounds (entity : TrustEntity) (events : List TrustEvent) :
    0 ≤ justiceCalculate entity events ∧ justiceCalculate entity events ≤ 100 := by
  unfold justiceCalculate
  refine ⟨le_min ?_ (by norm_num), min_le_right _ _⟩
  have h1 : (0 : ℚ) ≤ min (((events.filter (fun e =>
      !e.tags.isEmpty && e.tags.contains "community_impact")).length : ℚ) * 10) 30 :=
    le_min (by positivity) (by norm_num)
  have h2 : (0 : ℚ) ≤ min (((events.filter (fun e => !e.tags.isEmpty &&
      (["justice", "fairness", "equality", "transparency"] : List String).any
        (fun t => e.tags.contains t))).length : ℚ) * 8) 25 :=
    le_min (by positivity) (by norm_num)
  have h3 : (0 : ℚ) ≤ min (((events.filter (fun e =>
      !e.tags.isEmpty && e.tags.contains "harm_prevention")).length : ℚ) * 5) 15 :=
    le_min (by positivity) (by norm_num)
  have h4 : (0 : ℚ) ≤ min (((events.filter (fun e =>
      e.event_type == "dispute_resolution" && e.outcome == "positive")).length : ℚ) * 10) 20 :=
    le_min (by positivity) (by norm_num)
  have h5 : (0 : ℚ) ≤ if entity.transparency_level ≠ 0 ∧
      entity.transparency_level > 7 / 10 then (10 : ℚ) else 0 := by
    split <;> norm_num
  linarith

lemma peopleCalculate_bounds (d : DimScores) (entity : TrustEntity) (events : List TrustEvent) :
    0 ≤ peopleCalculate d entity events ∧ peopleCalculate d entity events ≤ 100 := by
  unfold peopleCalculate
  exact clamp01_bounds _

lemma legalCalculate_bounds (d : DimScores) (entity : TrustEntity) (events : List TrustEvent) :
    0 ≤ legalCalculate d entity events ∧ legalCalculate d entity events ≤ 100 := by
  unfold legalCalculate
  exact clamp01_bounds _

lemma stateCalculate_bounds (d : DimScores) (entity : TrustEntity) (events : List TrustEvent) :
    0 ≤ stateCalculate d entity events ∧ stateCalculate d entity events ≤ 100 := by
  unfold stateCalculate
  exact clamp01_bounds _

lemma chittyCalculate_bounds (d : DimScores) (entity : TrustEntity) (events : List TrustEvent) :
    0 ≤ chittyCalculate d entity events ∧ chittyCalculate d entity events ≤ 100 := by
  unfold chittyCalculate
  exact clamp01_bounds _

lemma calculateConfidence_bounds (now : ℚ) (events : List TrustEvent) (d : DimScores) :
    1 / 10 ≤ calculateConfidence now events d ∧ calculateConfidence now events d ≤ 1 := by
  unfold calculateConfidence
  exact ⟨le_min (le_max_right _ _) (by norm_num), min_le_right _ _⟩

/-! ## Invariance of the engine under changes of entity_id: no scorer
reads the entity_id field of an event, so mapping withEntityId over the
event list leaves every computed score unchanged. -/

lemma isEmpty_map {α β : Type} (f : α → β) (l : List α) : (l.map f).isEmpty = l.isEmpty := by
  cases l <;> rfl

lemma withEntityId_filter (s : String) (p : TrustEvent → Bool) (l : List TrustEvent) :
    (l.map (withEntityId s)).filter p
      = (l.filter (fun e => p (withEntityId s e))).map (withEntityId s) :=
  List.filter_map (withEntityId s) l

lemma withEntityId_filterMap (s : String) (l : List TrustEvent) :
    (l.map (withEntityId s)).filterMap (fun e => e.channel)
      = l.filterMap (fun e => e.channel) := by
  rw [List.filterMap_map]
  rfl

lemma latestTimestamp_withId (s : String) (l : List TrustEvent) :
    latestTimestamp (l.map (withEntityId s)) = latestTimestamp l := by
  cases l with
  | nil => rfl
  | cons e t =>
    simp only [List.map_cons, latestTimestamp, List.foldl_map]
    rfl

lemma sourceCalculate_withId (entity : TrustEntity) (events : List TrustEvent) (s : String) :
    sourceCalculate entity (events.map (withEntityId s)) = sourceCalculate entity events := rfl

lemma temporalCalculate_withId (now : ℚ) (entity : TrustEntity) (events : List TrustEvent)
    (s : String) :
    temporalCalculate now entity (events.map (withEntityId s))
      = temporalCalculate now entity events := by
  simp only [temporalCalculate, temporalConsistency, temporalRecency, temporalLongevity,
    isEmpty_map, latestTimestamp_withId, List.map_map, withEntityId_filter, List.length_map]
  rfl

lemma channelCalculate_withId (entity : TrustEntity) (events : List TrustEvent) (s : String) :
    channelCalculate entity (events.map (withEntityId s)) = channelCalculate entity events := by
  simp only [channelCalculate, isEmpty_map, List.map_map, withEntityId_filterMap,
    List.length_map]
  rfl

lemma outcomeCalculate_withId (now : ℚ) (entity : TrustEntity) (events : List TrustEvent)
    (s : String) :
    outcomeCalculate now entity (events.map (withEntityId s))
      = outcomeCalculate now entity events := by
  simp only [outcomeCalculate, isEmpty_map, withEntityId_filter, List.length_map,
    List.map_map]
  rfl

lemma networkCalculate_withId (entity : TrustEntity) (events : List TrustEvent) (s : String) :
    networkCalculate entity (events.map (withEntityId s)) = networkCalculate entity events := by
  simp only [networkCalculate, withEntityId_filter, List.length_map]
  rfl

lemma justiceCalculate_withId (entity : TrustEntity) (events : List TrustEvent) (s : String) :
    justiceCalculate entity (events.map (withEntityId s)) = justiceCalculate entity events := by
  simp only [justiceCalculate, withEntityId_filter, List.length_map]
  rfl

lemma peopleCalculate_withId (d : DimScores) (entity : TrustEntity) (events : List TrustEvent)
    (s : String) :
    peopleCalculate d entity (events.map (withEntityId s)) = peopleCalculate d entity events := by
  simp only [peopleCalculate, withEntityId_filter, List.length_map]
  rfl

lemma legalCalculate_withId (d : DimScores) (entity : TrustEntity) (events : List TrustEvent)
    (s : String) :
    legalCalculate d entity (events.map (withEntityId s)) = legalCalculate d entity events := by
  simp only [legalCalculate, withEntityId_filter, List.length_map]
  rfl

lemma stateCalculate_withId (d : DimScores) (entity : TrustEntity) (events : List TrustEvent)
    (s : String) :
    stateCalculate d entity (events.map (withEntityId s)) = stateCalculate d entity events := by
  simp only [stateCalculate, withEntityId_filter, List.length_map]
  rfl

lemma chittyCalculate_withId (d : DimScores) (entity : TrustEntity) (events : List TrustEvent)
    (s : String) :
    chittyCalculate d entity (events.map (withEntityId s)) = chittyCalculate d entity events := by
  simp only [chittyCalculate, chittyViolationPenalty, withEntityId_filter, List.length_map,
    List.map_map, isEmpty_map]
  rfl

lemma calculateConfidence_withId (now : ℚ) (events : List TrustEvent) (d : DimScores)
    (s : String) :
    calculateConfidence now (events.map (withEntityId s)) d
      = calculateConfidence now events d := by
  simp only [calculateConfidence, isEmpty_map, latestTimestamp_withId, List.length_map]

lemma engineDims_withId (now : ℚ) (entity : TrustEntity) (events : List TrustEvent)
    (s : String) :
    engineDims now entity (events.map (withEntityId s)) = engineDims now entity events := by
  simp only [engineDims, sourceCalculate_withId, temporalCalculate_withId,
    channelCalculate_withId, outcomeCalculate_withId, networkCalculate_withId,
    justiceCalculate_withId]

lemma calculateTrust_withId (now : ℚ) (entity : TrustEntity) (events : List TrustEvent)
    (s : String) :
    calculateTrust now entity (events.map (withEntityId s))
      = calculateTrust now entity events := by
  simp only [calculateTrust, engineDims_withId, peopleCalculate_withId, legalCalculate_withId,
    stateCalculate_withId, chittyCalculate_withId, calculateConfidence_withId]

/-! ## Claim theorems -/

/-- C1: for every valid TrustEntity and event list, each of the six
dimension scores and four output scores returned by the engine lies in
[0,100], and the returned confidence lies in [0.1,1.0]; in particular
the Temporal and Network scorers, which apply no final clamp, never
return a value above 100. -/
theorem claim1_score_bounds (now : ℚ) (entity : TrustEntity) (events : List TrustEvent)
    (h : ValidInput now entity events) :
    (0 ≤ (calculateTrust now entity events).source_score ∧
      (calculateTrust now entity events).source_score ≤ 100) ∧
    (0 ≤ (calculateTrust now entity events).temporal_score ∧
      (calculateTrust now entity events).temporal_score ≤ 100) ∧
    (0 ≤ (calculateTrust now entity events).channel_score ∧
      (calculateTrust now entity events).channel_score ≤ 100) ∧
    (0 ≤ (calculateTrust now entity events).outcome_score ∧
      (calculateTrust now entity events).outcome_score ≤ 100) ∧
    (0 ≤ (calculateTrust now entity events).network_score ∧
      (calculateTrust now entity events).network_score ≤ 100) ∧
    (0 ≤ (calculateTrust now entity events).justice_score ∧
      (calculateTrust now entity events).justice_score ≤ 100) ∧
    (0 ≤ (calculateTrust now entity events).people_score ∧
      (calculateTrust now entity events).people_score ≤ 100) ∧
    (0 ≤ (calculateTrust now entity events).legal_score ∧
      (calculateTrust now entity events).legal_score ≤ 100) ∧
    (0 ≤ (calculateTrust now entity events).state_score ∧
      (calculateTrust now entity events).state_score ≤ 100) ∧
    (0 ≤ (calculateTrust now entity events).chitty_score ∧
      (calculateTrust now entity events).chitty_score ≤ 100) ∧
    (1 / 10 ≤ (calculateTrust now entity events).confidence ∧
      (calculateTrust now entity events).confidence ≤ 1) := by
  obtain ⟨hc, hts, hchain, htrust, htrans, himp⟩ := h
  exact ⟨sourceCalculate_bounds entity events,
    temporalCalculate_bounds now entity events hc hts hchain,
    channelCalculate_bounds entity events,
    outcomeCalculate_bounds now entity events,
    networkCalculate_bounds entity events htrust,
    justiceCalculate_bounds entity events,
    peopleCalculate_bounds _ entity events,
    legalCalculate_bounds _ entity events,
    stateCalculate_bounds _ entity events,
    chittyCalculate_bounds _ entity events,
    calculateConfidence_bounds now events _⟩

/-- Witness for C1 at a concrete valid input. -/
theorem claim1_score_bounds_witness :
    ValidInput 0 w_entity [] ∧
    (1 / 10 ≤ (calculateTrust 0 w_entity []).confidence ∧
      (calculateTrust 0 w_entity []).confidence ≤ 1) ∧
    (0 ≤ (calculateTrust 0 w_entity []).temporal_score ∧
      (calculateTrust 0 w_entity []).temporal_score ≤ 100) ∧
    (0 ≤ (calculateTrust 0 w_entity []).network_score ∧
      (calculateTrust 0 w_entity []).network_score ≤ 100) := by
  have hv : ValidInput 0 w_entity [] := by
    refine ⟨by norm_num [w_entity], by simp, by simp, ?_, by norm_num [w_entity], by simp⟩
    intro c hcm
    simp [w_entity] at hcm
  obtain ⟨hs, ht, hch, ho, hn, hj, hp, hl, hst, hcy, hcf⟩ := claim1_score_bounds 0 w_entity [] hv
  exact ⟨hv, hcf, ht, hn⟩

/-- C2: composite_score is the fixed-weight sum of the six dimension
scores with weights .15/.10/.15/.20/.15/.25 (exact in ℚ, which idealises
the float weights). -/
theorem claim2_composite_weights (t : TrustScore) :
    t.composite_score = t.source_score * (15 / 100) + t.temporal_score * (10 / 100)
      + t.channel_score * (15 / 100) + t.outcome_score * (20 / 100)
      + t.network_score * (15 / 100) + t.justice_score * (25 / 100) := by
  simp only [TrustScore.composite_score, List.sum_cons, List.sum_nil]
  ring

/-- C4: with an empty event list the engine returns temporal_score 0 and
a confidence strictly below 0.5, for every entity. -/
theorem claim4_empty_events (now : ℚ) (entity : TrustEntity) :
    (calculateTrust now entity []).temporal_score = 0 ∧
    (calculateTrust now entity []).confidence < 1 / 2 := by
  constructor
  · show temporalCalculate now entity [] = 0
    simp [temporalCalculate]
  · show calculateConfidence now [] (engineDims now entity []) < 1 / 2
    generalize engineDims now entity [] = d
    have hv := listVar_nonneg [d.source, d.temporal, d.channel, d.outcome, d.network, d.justice]
    simp only [calculateConfidence, List.length_nil, List.isEmpty_nil, if_true,
      Nat.cast_zero]
    set v := listVar [d.source, d.temporal, d.channel, d.outcome, d.network, d.justice] with hv0
    have h1 : min ((0 : ℚ) / 100) 1 * (1 / 2) = 0 := by norm_num
    rw [h1]
    calc min (max (0 + (1 - v / 5000) * (3 / 10) + 0) (1 / 10)) 1
        ≤ max (0 + (1 - v / 5000) * (3 / 10) + 0) (1 / 10) := min_le_left _ _
      _ ≤ 3 / 10 := max_le (by nlinarith) (by norm_num)
      _ < 1 / 2 := by norm_num

/-- C5: in the Chitty output score the violation penalty is exactly 5
per violation-tagged event without a civil_disobedience or
whistleblower tag and exactly 1 per violation-tagged event with one,
summed over all such events (before the final clamp). -/
theorem claim5_violation_penalty (events : List TrustEvent) :
    chittyViolationPenalty events =
      5 * ((events.filter (fun e => e.tags.contains "violation" &&
        !((["civil_disobedience", "whistleblower"] : List String).any
          (fun t => e.tags.contains t)))).length : ℚ)
      + 1 * ((events.filter (fun e => e.tags.contains "violation" &&
        (["civil_disobedience", "whistleblower"] : List String).any
          (fun t => e.tags.contains t))).length : ℚ) := by
  simp only [chittyViolationPenalty]
  have hguard : events.filter (fun e => !e.tags.isEmpty && e.tags.contains "violation")
      = events.filter (fun e => e.tags.contains "violation") := by
    apply List.filter_congr
    intro e _
    cases h : e.tags <;> simp
  rw [hguard, List.filter_filter]
  have hcomm : events.filter (fun e =>
      ((["civil_disobedience", "whistleblower"] : List String).any
        (fun t => e.tags.contains t)) && e.tags.contains "violation")
      = events.filter (fun e => e.tags.contains "violation" &&
        ((["civil_disobedience", "whistleblower"] : List String).any
          (fun t => e.tags.contains t))) := by
    apply List.filter_congr
    intro e _
    exact Bool.and_comm _ _
  rw [hcomm]
  have hsplit : (events.filter (fun e => e.tags.contains "violation" &&
        ((["civil_disobedience", "whistleblower"] : List String).any
          (fun t => e.tags.contains t)))).length
      + (events.filter (fun e => e.tags.contains "violation" &&
        !((["civil_disobedience", "whistleblower"] : List String).any
          (fun t => e.tags.contains t)))).length
      = (events.filter (fun e => e.tags.contains "violation")).length :=
    length_filter_and_split (fun e => e.tags.contains "violation")
      (fun e => (["civil_disobedience", "whistleblower"] : List String).any
        (fun t => e.tags.contains t)) events
  have hq : ((events.filter (fun e => e.tags.contains "violation")).length : ℚ)
      = ((events.filter (fun e => e.tags.contains "violation" &&
          ((["civil_disobedience", "whistleblower"] : List String).any
            (fun t => e.tags.contains t)))).length : ℚ)
        + ((events.filter (fun e => e.tags.contains "violation" &&
          !((["civil_disobedience", "whistleblower"] : List String).any
            (fun t => e.tags.contains t)))).length : ℚ) := by
    exact_mod_cast hsplit.symm
  rw [hq]
  ring

/-- C3 counterexample: calculate_trust does not fail on an event whose
entity_id differs from entity.id: it returns the very TrustScore it
returns for the matching entity_id, performing no validation at all. -/
theorem claim3_counterexample :
    c3event.entity_id ≠ w_entity.id ∧
    calculateTrust 0 w_entity [c3event]
      = calculateTrust 0 w_entity [{ c3event with entity_id := w_entity.id }] := by
  constructor
  · decide
  · exact (calculateTrust_withId 0 w_entity [c3event] w_entity.id).symm

/-- C3 (amended): calculate_trust performs no entity_id validation: for
any entity and event list it returns a TrustScore computed from the
inputs, and the entity_id fields of the events are never consulted, so
rewriting them all (matching or mismatching entity.id) leaves the result
unchanged. -/
theorem claim3_amended (now : ℚ) (entity : TrustEntity) (events : List TrustEvent) (s : String) :
    calculateTrust now entity (events.map (withEntityId s))
      = calculateTrust now entity events :=
  calculateTrust_withId now entity events s

/-- C6 counterexample: the claim reads the consistency bonus as 20 as
soon as the positive ratio exceeds 0.8 with AT LEAST 10 events; the code
requires strictly MORE than 10 events.  On ten events, nine positive and
one neutral, all recent, the claim formula (bonus 20, clamped to
[0,100]) yields 83 while the code yields 73. -/
theorem claim6_counterexample :
    outcomeCalculate 100 w_entity c6events = 73 ∧
    ((c6events.filter (fun e => e.outcome == "positive")).length : ℚ) / (c6events.length : ℚ)
      > 8 / 10 ∧
    10 ≤ c6events.length ∧
    max 0 (min
      (((c6events.filter (fun e => e.outcome == "positive")).length : ℚ) / (c6events.length : ℚ)
          * 70
        - ((c6events.filter (fun e => e.outcome == "negative")).length : ℚ)
          / (c6events.length : ℚ) * 100
        + 20
        + ((((c6events.filter (fun e => e.timestamp > (100 : ℚ) - 90)).filter
              (fun e => e.outcome == "positive")).length : ℚ)
            / (((c6events.filter (fun e => e.timestamp > (100 : ℚ) - 90)).length : ℚ))
          - ((c6events.filter (fun e => e.outcome == "positive")).length : ℚ)
            / (c6events.length : ℚ)) * 20)
      100) = 83 ∧
    (73 : ℚ) ≠ 83 := by
  have hpos : (c6events.filter (fun e => e.outcome == "positive")).length = 9 := by decide
  have hneg : (c6events.filter (fun e => e.outcome == "negative")).length = 0 := by decide
  have hlen : c6events.length = 10 := by decide
  have hrecent : c6events.filter (fun e => e.timestamp > (100 : ℚ) - 90) = c6events := by
    apply List.filter_eq_self.mpr
    intro e he
    have : e.timestamp = 50 := by
      fin_cases he <;> rfl
    rw [this]
    norm_num
  refine ⟨?_, ?_, ?_, ?_, by norm_num⟩
  · simp only [outcomeCalculate]
    rw [if_neg (show ¬c6events.isEmpty = true by decide)]
    simp only [hrecent, hpos, hneg, hlen]
    norm_num
  · rw [hpos, hlen]
    norm_num
  · rw [hlen]
  · rw [hrecent, hpos, hneg, hlen]
    norm_num

/-- C6 (amended): the outcome dimension equals the spec formula with the
consistency-bonus condition read as MORE than 10 events (the rest of the
sentence unchanged): positive_ratio*70 - negative_ratio*100 +
consistency_bonus + recency_adjustment clamped to [0,100], 0 on an empty
list. -/
theorem claim6_amended (now : ℚ) (entity : TrustEntity) (events : List TrustEvent) :
    outcomeCalculate now entity events = outcomeSpecScore now events := by
  by_cases hemp : events.isEmpty
  · have hnil : events = [] := List.isEmpty_iff.mp hemp
    simp [outcomeCalculate, outcomeSpecScore, hnil]
  · have hne : events ≠ [] := fun hcon => hemp (by simp [hcon])
    simp only [outcomeCalculate, outcomeSpecScore, if_neg hemp, if_neg hne,
      List.countP_eq_length_filter, List.filter_filter,
      List.isEmpty_iff_length_eq_zero]
    rw [if_neg (fun h => hne (List.length_eq_zero.mp h))]

/-- C7 counterexample: the claim allows only calculated_at to differ
between two calls on identical inputs, but the scorers read the wall
clock too: the same entity and single event assessed at day 0 and at day
400 get different temporal scores (37 versus 47). -/
theorem claim7_counterexample :
    (calculateTrust 0 w_entity [c7event]).temporal_score
      ≠ (calculateTrust 400 w_entity [c7event]).temporal_score := by
  have h1 : (calculateTrust 0 w_entity [c7event]).temporal_score = 37 := by
    show temporalCalculate 0 w_entity [c7event] = 37
    simp [temporalCalculate, temporalAge, temporalConsistency, temporalRecency,
      temporalLongevity, dayGaps, latestTimestamp, c7event, w_entity]
    norm_num
  have h2 : (calculateTrust 400 w_entity [c7event]).temporal_score = 47 := by
    show temporalCalculate 400 w_entity [c7event] = 47
    simp [temporalCalculate, temporalAge, temporalConsistency, temporalRecency,
      temporalLongevity, dayGaps, latestTimestamp, c7event, w_entity]
    norm_num
  rw [h1, h2]
  norm_num

/-- C7 (amended): two calls with identical entity and events and the
same clock reading agree on every field; even across different clock
readings the four time-independent dimensions (source, channel, network,
justice) agree, while the remaining values may differ with the clock. -/
theorem claim7_amended (now1 now2 : ℚ) (entity : TrustEntity) (events : List TrustEvent) :
    ((calculateTrust now1 entity events).source_score
        = (calculateTrust now2 entity events).source_score ∧
      (calculateTrust now1 entity events).channel_score
        = (calculateTrust now2 entity events).channel_score ∧
      (calculateTrust now1 entity events).network_score
        = (calculateTrust now2 entity events).network_score ∧
      (calculateTrust now1 entity events).justice_score
        = (calculateTrust now2 entity events).justice_score) ∧
    (now1 = now2 → calculateTrust now1 entity events = calculateTrust now2 entity events) :=
  ⟨⟨rfl, rfl, rfl, rfl⟩, fun h => by rw [h]⟩

/-- Witness for C7 (amended) at a concrete input and clock reading. -/
theorem claim7_amended_witness :
    (0 : ℚ) = 0 ∧
    calculateTrust 0 w_entity [c7event] = calculateTrust 0 w_entity [c7event] :=
  ⟨rfl, (claim7_amended 0 0 w_entity [c7event]).2 rfl⟩

/-- C8 counterexample: the claim places the community_engagement
threshold at AT LEAST 8 matching events; the code requires strictly MORE
than 8.  Eight endorsement events match the community set yet no pattern
is returned. -/
theorem claim8_counterexample :
    (evs8.filter (fun e =>
      (["community_service", "endorsement", "collaboration"] : List String).contains
        e.event_type)).length = 8 ∧
    detectPatterns w_entity evs8 = [] := by
  constructor <;> decide

/-- C8 (amended): detect_patterns returns a community_engagement pattern
exactly when MORE than 8 events have event_type in {community_service,
endorsement, collaboration}, and a professional_development pattern
exactly when MORE than 3 events have event_type in {certification,
professional_development, training}; each returned such pattern carries
its fixed risk_level and recommendation string. -/
theorem claim8_amended (entity : TrustEntity) (events : List TrustEvent) :
    ((∃ p ∈ detectPatterns entity events, p.pattern_type = "community_engagement") ↔
      (events.filter (fun e =>
        (["community_service", "endorsement", "collaboration"] : List String).contains
          e.event_type)).length > 8) ∧
    ((∃ p ∈ detectPatterns entity events, p.pattern_type = "professional_development") ↔
      (events.filter (fun e =>
        (["certification", "professional_development", "training"] : List String).contains
          e.event_type)).length > 3) ∧
    (∀ p ∈ detectPatterns entity events,
      (p.pattern_type = "community_engagement" →
        p.risk_level = "low" ∧
        p.recommendation = "Excellent for community-focused initiatives") ∧
      (p.pattern_type = "professional_development" →
        p.risk_level = "low" ∧
        p.recommendation = "Strong candidate for professional partnerships")) := by
  have hhv : events.filter (fun e => e.event_type == "transaction" && hasValueAttr e) = [] :=
    List.filter_eq_nil_iff.mpr (fun e _ => by simp [hasValueAttr])
  simp only [detectPatterns, hhv, List.length_nil]
  rw [if_neg (by norm_num : ¬ (0 : ℕ) > 5)]
  by_cases h1 : (events.filter (fun e =>
      (["community_service", "endorsement", "collaboration"] : List String).contains
        e.event_type)).length > 8 <;>
    by_cases h2 : (events.filter (fun e =>
      (["certification", "professional_development", "training"] : List String).contains
        e.event_type)).length > 3
  · rw [if_pos h1, if_pos h2]
    simp at h1 h2
    simp [h1, h2]
  · rw [if_pos h1, if_neg h2]
    simp at h1 h2
    simp [h1, h2]
  · rw [if_neg h1, if_pos h2]
    simp at h1 h2
    simp [h1, h2]
  · rw [if_neg h1, if_neg h2]
    simp at h1 h2
    simp [h1, h2]

/-- Witness for C8 at concrete inputs: nine endorsements produce the
community pattern, eight do not. -/
theorem claim8_amended_witness :
    (∃ p ∈ detectPatterns w_entity evs9, p.pattern_type = "community_engagement") ∧
    ¬(∃ p ∈ detectPatterns w_entity evs8, p.pattern_type = "community_engagement") := by
  constructor
  · exact (claim8_amended w_entity evs9).1.mpr (by decide)
  · intro hcon
    exact absurd ((claim8_amended w_entity evs8).1.mp hcon) (by decide)

/-- C9: detect_patterns can never return a high_value_activity pattern:
its filter requires the hasattr(e, 'value') probe, and the TrustEvent
model defines no value attribute, so the candidate set is always
empty. -/
theorem claim9_no_high_value (entity : TrustEntity) (events : List TrustEvent) :
    ∀ p ∈ detectPatterns entity events, p.pattern_type ≠ "high_value_activity" := by
  intro p hp
  have hhv : events.filter (fun e => e.event_type == "transaction" && hasValueAttr e) = [] :=
    List.filter_eq_nil_iff.mpr (fun e _ => by simp [hasValueAttr])
  simp only [detectPatterns, hhv, List.length_nil] at hp
  rw [if_neg (by norm_num : ¬ (0 : ℕ) > 5), List.nil_append] at hp
  rcases List.mem_append.mp hp with hc | hc
  · by_cases h1 : (events.filter (fun e =>
        (["community_service", "endorsement", "collaboration"] : List String).contains
          e.event_type)).length > 8
    · rw [if_pos h1] at hc
      simp only [List.mem_singleton] at hc
      subst hc
      simp
    · rw [if_neg h1] at hc
      simp at hc
  · by_cases h2 : (events.filter (fun e =>
        (["certification", "professional_development", "training"] : List String).contains
          e.event_type)).length > 3
    · rw [if_pos h2] at hc
      simp only [List.mem_singleton] at hc
      subst hc
      simp
    · rw [if_neg h2] at hc
      simp at hc

/-- Witness for C9: a concrete returned pattern, shown not to be
high_value_activity through the theorem. -/
theorem claim9_no_high_value_witness :
    communityPattern9 ∈ detectPatterns w_entity evs9 ∧
    communityPattern9.pattern_type ≠ "high_value_activity" :=
  ⟨by decide, claim9_no_high_value w_entity evs9 communityPattern9 (by decide)⟩

/-- C10: with exactly one event the Temporal consistency component is
the fixed 15 (no inter-event gaps exist) and the temporal score is the
sum of the age component, 15, the recency component and the longevity
component. -/
theorem claim10_single_event_consistency (now : ℚ) (entity : TrustEntity) (e : TrustEvent) :
    temporalCalculate now entity [e] =
      temporalAge now entity + 15 + temporalRecency now [e] + temporalLongevity [e] := by
  simp [temporalCalculate, temporalConsistency, dayGaps]

end ChittyTrust
